import Mathlib

/-!
Verification development for the PingPay scheduler service
(job-scheduling / dead-letter subsystem).

The API handlers (`app.post "/jobs"`, `app.put "/jobs/:id"`,
`app.delete "/jobs/:id"`, `app.patch "/jobs/:id/status"`,
`app.post "/jobs/:id/run"`, `app.post "/dlq/:id/reactivate"`,
`app.post "/dlq/:id/complete"`) and the BullMQ worker are embedded from the
TypeScript source.  Timestamps are modelled as natural numbers (milliseconds
since epoch).  The Postgres job table is a list of rows keyed by `id`; the
two BullMQ queues ("active" lane and dead-letter lane) are lists of entries
keyed by the BullMQ job id, with BullMQ's per-id deduplication on `add`
(adding an entry whose id is already present keeps the existing entry) and
`remove` by id.
-/

namespace PingScheduler

/-- Job status enum; string values "active" / "inactive" / "failed". -/
inductive JobStatus
  | active
  | inactive
  | failed
deriving DecidableEq

/-- Parse a raw status string as the handler's
`Object.values(JobStatus).includes(body.status)` check does; a missing or
falsy status is the empty string, which fails the check. -/
def parseStatus : String → Option JobStatus
  | "active" => some JobStatus.active
  | "inactive" => some JobStatus.inactive
  | "failed" => some JobStatus.failed
  | _ => none

/-- Schedule type enum; string values "cron" / "specific_time" / "recurring". -/
inductive ScheduleType
  | cron
  | specific_time
  | recurring
deriving DecidableEq

/-- Recurring-interval enum. -/
inductive Interval
  | minute
  | hour
  | day
  | week
  | month
  | year
deriving DecidableEq

/-- Parse a raw interval string; unknown enums fail closed (`none`). -/
def parseInterval : String → Option Interval
  | "minute" => some Interval.minute
  | "hour" => some Interval.hour
  | "day" => some Interval.day
  | "week" => some Interval.week
  | "month" => some Interval.month
  | "year" => some Interval.year
  | _ => none

/-- Modelled from the spec: the millisecond length of one base unit of each
recurring interval (`lib/scheduler.ts` is not under src/).  Months and years
use the fixed 30-day / 365-day conversions of an interval-to-milliseconds
repeat specification. -/
def unitMillis : Interval → Nat
  | Interval.minute => 60000
  | Interval.hour => 3600000
  | Interval.day => 86400000
  | Interval.week => 604800000
  | Interval.month => 2592000000
  | Interval.year => 31536000000

/-- The schedule-relevant fields shared by job inputs and stored rows. -/
structure SchedCfg where
  schedule_type : ScheduleType
  cron_expression : Option String := none
  specific_time : Option Nat := none
  interval : Option String := none
  interval_value : Option Nat := none
deriving DecidableEq

/-- Modelled from the spec: the next fire time of a cron expression after
`asOf`, as computed by the external cron library used by the missing
`lib/scheduler.ts`.  No claim depends on the concrete value; a nonempty
expression yields some future time (abstracted as one minute later) and an
empty one fails closed. -/
def cronNextAfter (expr : String) (asOf : Nat) : Option Nat :=
  if expr = "" then none else some (asOf + 60000)

/-- Modelled from the spec: `calculateNextRun(job, asOf)` from the missing
`lib/scheduler.ts`.  CRON: next fire time after `asOf`; RECURRING: `asOf`
plus `interval_value` units of `interval`; SPECIFIC_TIME: the specific time
only if not yet passed, else `none`.  Missing or unrecognized fields fail
closed. -/
def calculateNextRun (cfg : SchedCfg) (asOf : Nat) : Option Nat :=
  match cfg.schedule_type with
  | ScheduleType.cron =>
    match cfg.cron_expression with
    | some expr => cronNextAfter expr asOf
    | none => none
  | ScheduleType.recurring =>
    match cfg.interval, cfg.interval_value with
    | some s, some v =>
      match parseInterval s with
      | some i => some (asOf + v * unitMillis i)
      | none => none
    | _, _ => none
  | ScheduleType.specific_time =>
    match cfg.specific_time with
    | some t => if asOf < t then some t else none
    | none => none

/-- Modelled from the spec: `calculateInitialDelay(job)` from the missing
`lib/scheduler.ts`.  Valid only for SPECIFIC_TIME; returns the millisecond
delay until the specific time, or `none` when that time is not strictly in
the future. -/
def calculateInitialDelay (cfg : SchedCfg) (now : Nat) : Option Nat :=
  match cfg.schedule_type with
  | ScheduleType.specific_time =>
    match cfg.specific_time with
    | some t => if now < t then some (t - now) else none
    | none => none
  | _ => none

/-- A BullMQ repeat specification. -/
inductive RepeatOpts
  | cronPattern (expr : String)
  | every (ms : Nat)
deriving DecidableEq

/-- Modelled from the spec: `calculateRepeatOptions(job)` from the missing
`lib/scheduler.ts`.  CRON emits the expression unmodified; RECURRING converts
`interval` + `interval_value` to an every-N-milliseconds repeat; invalid or
unrecognized interval enums fail closed. -/
def calculateRepeatOptions (cfg : SchedCfg) : Option RepeatOpts :=
  match cfg.schedule_type with
  | ScheduleType.cron =>
    match cfg.cron_expression with
    | some expr => if expr = "" then none else some (RepeatOpts.cronPattern expr)
    | none => none
  | ScheduleType.recurring =>
    match cfg.interval, cfg.interval_value with
    | some s, some v =>
      match parseInterval s with
      | some i => some (RepeatOpts.every (v * unitMillis i))
      | none => none
    | _, _ => none
  | ScheduleType.specific_time => none

/-- A job-creation / job-update request body after `JobSchema.safeParse`
succeeds.  The zod `JobSchema` itself is not under src/; the field set is
modelled from the spec's data model and the fields the handlers read
(`jobData.name`, `jobData.status || JobStatus.ACTIVE`, ...). -/
structure JobInput where
  name : String
  description : Option String := none
  type : String
  target : String
  payload : Option String := none
  cron_expression : Option String := none
  schedule_type : ScheduleType
  specific_time : Option Nat := none
  interval : Option String := none
  interval_value : Option Nat := none
  status : Option JobStatus := none
deriving DecidableEq

/-- Project the schedule-relevant fields of a request body. -/
def JobInput.cfg (j : JobInput) : SchedCfg :=
  { schedule_type := j.schedule_type
    cron_expression := j.cron_expression
    specific_time := j.specific_time
    interval := j.interval
    interval_value := j.interval_value }

/-- A persisted row of the `jobs` table. -/
structure JobRow where
  id : String
  name : String
  description : Option String := none
  type : String
  target : String
  payload : Option String := none
  cron_expression : Option String := none
  schedule_type : ScheduleType
  specific_time : Option Nat := none
  interval : Option String := none
  interval_value : Option Nat := none
  next_run : Option Nat := none
  status : JobStatus
  last_run : Option Nat := none
  error_message : Option String := none
deriving DecidableEq

/-- Project the schedule-relevant fields of a stored row. -/
def JobRow.cfg (r : JobRow) : SchedCfg :=
  { schedule_type := r.schedule_type
    cron_expression := r.cron_expression
    specific_time := r.specific_time
    interval := r.interval
    interval_value := r.interval_value }

/-- The payload a queue entry carries (`{jobId, target, type, payload}`). -/
structure JobData where
  jobId : String
  target : String
  type : String
  payload : Option String := none
deriving DecidableEq

/-- One entry of a BullMQ queue, keyed by its BullMQ job id. -/
structure QueueEntry where
  queueId : String
  data : JobData
deriving DecidableEq

/-- Add an entry to a queue lane.  BullMQ deduplicates on the BullMQ job id:
adding under an id that is already present keeps the existing entry. -/
def addEntry (q : List QueueEntry) (e : QueueEntry) : List QueueEntry :=
  if q.any (fun x => x.queueId = e.queueId) then q else q ++ [e]

/-- Remove every entry with the given BullMQ job id (`queue.remove(id)`;
absence is not an error). -/
def removeEntry (q : List QueueEntry) (i : String) : List QueueEntry :=
  q.filter (fun x => x.queueId ≠ i)

/-- Whether the lane holds an entry under the given id. -/
def inLane (q : List QueueEntry) (i : String) : Bool :=
  q.any (fun x => x.queueId = i)

/-- The scheduler's persistent + queue state: the Postgres `jobs` table,
the active Execution Queue lane, and the Dead-Letter lane. -/
structure SchedState where
  store : List JobRow
  execQueue : List QueueEntry
  dlq : List QueueEntry
deriving DecidableEq

/-- `SELECT * FROM jobs WHERE id = $1`, first row if any. -/
def findJob (st : SchedState) (i : String) : Option JobRow :=
  st.store.find? (fun r => r.id = i)

/-- Map an update over the row(s) with the given id. -/
def updateRow (store : List JobRow) (i : String) (f : JobRow → JobRow) :
    List JobRow :=
  store.map (fun r => if r.id = i then f r else r)

/-- An HTTP response of a handler: status code and message. -/
structure Response where
  code : Nat
  message : String
deriving DecidableEq

/-- The row the create handler INSERTs (status defaults to ACTIVE, next_run
from `calculateNextRun`, last_run and error_message NULL). -/
def rowOfInput (input : JobInput) (newId : String) (nextRun : Option Nat) :
    JobRow :=
  { id := newId
    name := input.name
    description := input.description
    type := input.type
    target := input.target
    payload := input.payload
    cron_expression := input.cron_expression
    schedule_type := input.schedule_type
    specific_time := input.specific_time
    interval := input.interval
    interval_value := input.interval_value
    next_run := nextRun
    status := input.status.getD JobStatus.active
    last_run := none
    error_message := none }

/-- The queue payload built from a request body (`bullJobData`). -/
def dataOfInput (input : JobInput) (i : String) : JobData :=
  { jobId := i, target := input.target, type := input.type,
    payload := input.payload }

/-- The queue payload built from a stored row (`bullJobData`), carrying the
id from the route parameter. -/
def dataOfRow (i : String) (r : JobRow) : JobData :=
  { jobId := i, target := r.target, type := r.type, payload := r.payload }

/-- `app.post "/jobs"`: validate, compute next_run, INSERT the row, then
enqueue into the Execution Queue under the job's own id, by delay for
SPECIFIC_TIME and by repeat options for CRON / RECURRING.  `newId` is the
generated uuid and `now` the current time. -/
def createJob (input : JobInput) (newId : String) (now : Nat)
    (st : SchedState) : Response × SchedState :=
  let nextRun := calculateNextRun input.cfg now
  if nextRun = none ∧ input.schedule_type ≠ ScheduleType.specific_time then
    (⟨400, "Invalid schedule configuration"⟩, st)
  else
    let st1 : SchedState :=
      { st with store := st.store ++ [rowOfInput input newId nextRun] }
    if input.schedule_type = ScheduleType.specific_time then
      match calculateInitialDelay input.cfg now with
      | none => (⟨400, "Specific time must be in the future"⟩, st1)
      | some _ =>
        (⟨201, "Job created successfully"⟩,
          { st1 with execQueue :=
              addEntry st1.execQueue ⟨newId, dataOfInput input newId⟩ })
    else
      match calculateRepeatOptions input.cfg with
      | none => (⟨400, "Invalid repeat configuration"⟩, st1)
      | some _ =>
        (⟨201, "Job created successfully"⟩,
          { st1 with execQueue :=
              addEntry st1.execQueue ⟨newId, dataOfInput input newId⟩ })

/-- The UPDATE of `app.put "/jobs/:id"`: overwrite the definition fields,
next_run and status; last_run and error_message are untouched. -/
def putFields (input : JobInput) (nextRun : Option Nat) (r : JobRow) :
    JobRow :=
  { r with
    name := input.name
    description := input.description
    type := input.type
    target := input.target
    payload := input.payload
    cron_expression := input.cron_expression
    schedule_type := input.schedule_type
    specific_time := input.specific_time
    interval := input.interval
    interval_value := input.interval_value
    next_run := nextRun
    status := input.status.getD JobStatus.active }

/-- `app.put "/jobs/:id"`: 404 on a missing row; validate; UPDATE the row;
remove the id from both lanes; re-enqueue into the Execution Queue under the
new schedule (delay or repeat). -/
def updateJob (i : String) (input : JobInput) (now : Nat)
    (st : SchedState) : Response × SchedState :=
  match findJob st i with
  | none => (⟨404, "Job not found"⟩, st)
  | some _ =>
    let nextRun := calculateNextRun input.cfg now
    if nextRun = none ∧ input.schedule_type ≠ ScheduleType.specific_time then
      (⟨400, "Invalid schedule configuration"⟩, st)
    else
      let st1 : SchedState :=
        { store := updateRow st.store i (putFields input nextRun)
          execQueue := removeEntry st.execQueue i
          dlq := removeEntry st.dlq i }
      if input.schedule_type = ScheduleType.specific_time then
        match calculateInitialDelay input.cfg now with
        | none => (⟨400, "Specific time must be in the future"⟩, st1)
        | some _ =>
          (⟨200, "Job updated successfully"⟩,
            { st1 with execQueue :=
                addEntry st1.execQueue ⟨i, dataOfInput input i⟩ })
      else
        match calculateRepeatOptions input.cfg with
        | none => (⟨400, "Invalid repeat configuration"⟩, st1)
        | some _ =>
          (⟨200, "Job updated successfully"⟩,
            { st1 with execQueue :=
                addEntry st1.execQueue ⟨i, dataOfInput input i⟩ })

/-- `app.delete "/jobs/:id"`: DELETE the row (404 when absent), then remove
the id from both lanes. -/
def deleteJob (i : String) (st : SchedState) : Response × SchedState :=
  match findJob st i with
  | none => (⟨404, "Job not found"⟩, st)
  | some _ =>
    (⟨200, "Job deleted successfully"⟩,
      { store := st.store.filter (fun r => r.id ≠ i)
        execQueue := removeEntry st.execQueue i
        dlq := removeEntry st.dlq i })

/-- The entry RunNow enqueues: BullMQ id `id ++ "-manual-" ++ Date.now()`. -/
def manualEntry (i : String) (now : Nat) (job : JobRow) : QueueEntry :=
  ⟨i ++ "-manual-" ++ toString now, dataOfRow i job⟩

/-- `app.post "/jobs/:id/run"`: 404 on a missing row; otherwise enqueue an
immediate entry under the distinct BullMQ id `id ++ "-manual-" ++ now`
without touching the store. -/
def runNow (i : String) (now : Nat) (st : SchedState) :
    Response × SchedState :=
  match findJob st i with
  | none => (⟨404, "Job not found"⟩, st)
  | some job =>
    (⟨200, "Job triggered successfully"⟩,
      { st with execQueue := addEntry st.execQueue (manualEntry i now job) })

/-- `app.patch "/jobs/:id/status"`: 400 when the raw status is not a member
of the JobStatus enum; 404 on a missing row; persist the new status; on
INACTIVE remove from the Execution Queue and add to the Dead-Letter lane; on
ACTIVE remove from the Dead-Letter lane and re-enqueue from the stored
schedule when the computed delay / repeat options are non-null; any other
accepted enum value (FAILED) changes no lane. -/
def setStatus (i : String) (raw : String) (now : Nat) (st : SchedState) :
    Response × SchedState :=
  match parseStatus raw with
  | none => (⟨400, "Invalid status value"⟩, st)
  | some newStatus =>
    match findJob st i with
    | none => (⟨404, "Job not found"⟩, st)
    | some job =>
      let st1 : SchedState :=
        { st with store :=
            updateRow st.store i (fun r => { r with status := newStatus }) }
      if newStatus = JobStatus.inactive then
        (⟨200, "Job status updated successfully"⟩,
          { st1 with
            execQueue := removeEntry st1.execQueue i
            dlq := addEntry st1.dlq ⟨i, dataOfRow i job⟩ })
      else if newStatus = JobStatus.active then
        let st2 : SchedState := { st1 with dlq := removeEntry st1.dlq i }
        if job.schedule_type = ScheduleType.specific_time then
          match calculateInitialDelay job.cfg now with
          | none => (⟨200, "Job status updated successfully"⟩, st2)
          | some _ =>
            (⟨200, "Job status updated successfully"⟩,
              { st2 with execQueue :=
                  addEntry st2.execQueue ⟨i, dataOfRow i job⟩ })
        else
          match calculateRepeatOptions job.cfg with
          | none => (⟨200, "Job status updated successfully"⟩, st2)
          | some _ =>
            (⟨200, "Job status updated successfully"⟩,
              { st2 with execQueue :=
                  addEntry st2.execQueue ⟨i, dataOfRow i job⟩ })
      else
        (⟨200, "Job status updated successfully"⟩, st1)

/-- `app.post "/dlq/:id/reactivate"`: 404 on a missing row; 400 unless the
current status is INACTIVE; set status ACTIVE; remove from the Dead-Letter
lane; re-enqueue into the Execution Queue from the stored schedule when the
computed delay / repeat options are non-null. -/
def reactivateFromDlq (i : String) (now : Nat) (st : SchedState) :
    Response × SchedState :=
  match findJob st i with
  | none => (⟨404, "Job not found"⟩, st)
  | some job =>
    if job.status ≠ JobStatus.inactive then
      (⟨400, "Only inactive jobs can be reactivated"⟩, st)
    else
      let st1 : SchedState :=
        { st with
          store := updateRow st.store i
            (fun r => { r with status := JobStatus.active })
          dlq := removeEntry st.dlq i }
      if job.schedule_type = ScheduleType.specific_time then
        match calculateInitialDelay job.cfg now with
        | none => (⟨200, "Job reactivated successfully"⟩, st1)
        | some _ =>
          (⟨200, "Job reactivated successfully"⟩,
            { st1 with execQueue :=
                addEntry st1.execQueue ⟨i, dataOfRow i job⟩ })
      else
        match calculateRepeatOptions job.cfg with
        | none => (⟨200, "Job reactivated successfully"⟩, st1)
        | some _ =>
          (⟨200, "Job reactivated successfully"⟩,
            { st1 with execQueue :=
                addEntry st1.execQueue ⟨i, dataOfRow i job⟩ })

/-- `app.post "/dlq/:id/complete"`: 404 on a missing row; 400 unless the
current status is INACTIVE; set `last_run = now`, clear next_run and
error_message (status stays INACTIVE); remove from the Dead-Letter lane. -/
def completeFromDlq (i : String) (now : Nat) (st : SchedState) :
    Response × SchedState :=
  match findJob st i with
  | none => (⟨404, "Job not found"⟩, st)
  | some job =>
    if job.status ≠ JobStatus.inactive then
      (⟨400, "Only inactive jobs can be completed from DLQ"⟩, st)
    else
      (⟨200, "Job marked as completed successfully"⟩,
        { st with
          store := updateRow st.store i
            (fun r => { r with last_run := some now, next_run := none,
                               error_message := none })
          dlq := removeEntry st.dlq i })

/-- The six Lifecycle Controller operations of the mutual-exclusion
invariant (Create, Update, Delete, SetStatus, ReactivateFromDeadLetter,
CompleteFromDeadLetter). -/
inductive LifecycleOp
  | create (input : JobInput) (newId : String) (now : Nat)
  | update (i : String) (input : JobInput) (now : Nat)
  | delete (i : String)
  | patchStatus (i : String) (raw : String) (now : Nat)
  | reactivate (i : String) (now : Nat)
  | complete (i : String) (now : Nat)

/-- Run one lifecycle operation. -/
def applyLifecycle : LifecycleOp → SchedState → Response × SchedState
  | LifecycleOp.create input newId now, st => createJob input newId now st
  | LifecycleOp.update i input now, st => updateJob i input now st
  | LifecycleOp.delete i, st => deleteJob i st
  | LifecycleOp.patchStatus i raw now, st => setStatus i raw now st
  | LifecycleOp.reactivate i now, st => reactivateFromDlq i now st
  | LifecycleOp.complete i now, st => completeFromDlq i now st

/-- Side condition of the invariant: a Create uses a freshly generated uuid,
so the new id is not already dead-lettered. -/
def opFresh : LifecycleOp → SchedState → Prop
  | LifecycleOp.create _ newId _, st => inLane st.dlq newId = false
  | _, _ => True

/-- An id is present in at most one of two given lanes. -/
def lanesExclusive (ex dl : List QueueEntry) (i : String) : Prop :=
  ¬ (inLane ex i = true ∧ inLane dl i = true)

/-- The job id is present in at most one of the two lanes. -/
def atMostOne (st : SchedState) (i : String) : Prop :=
  lanesExclusive st.execQueue st.dlq i

instance (st : SchedState) (i : String) : Decidable (atMostOne st i) := by
  unfold atMostOne lanesExclusive; infer_instance

/-- Lane membership agrees with the persisted status: a dead-lettered id
belongs to a row whose status is INACTIVE (the lane `GET /dlq` reports as
the rows with status inactive), and an id in the Execution Queue does not
belong to an INACTIVE row. -/
def laneConsistent (st : SchedState) (i : String) : Prop :=
  (inLane st.dlq i = true →
    (findJob st i).map JobRow.status = some JobStatus.inactive) ∧
  (inLane st.execQueue i = true →
    (findJob st i).map JobRow.status ≠ some JobStatus.inactive)

instance (st : SchedState) (i : String) : Decidable (laneConsistent st i) := by
  unfold laneConsistent; infer_instance

/-- Outcome of the worker's HTTP call: axios resolves on a 2xx response and
raises on a non-2xx status or timeout (modelled as the error message). -/
inductive HttpOutcome
  | ok (status : Nat)
  | err (msg : String)
deriving DecidableEq

/-- What one worker invocation did: the job table afterwards, whether an
HTTP request to the target was issued, and the error re-thrown to the queue
engine (`none` when the invocation returned normally). -/
structure WorkerResult where
  store : List JobRow
  httpIssued : Bool
  raised : Option String
deriving DecidableEq

/-- The failure-path UPDATE of the worker: set error_message (falling back
to "Unknown error" for an empty message) and status FAILED. -/
def failUpdate (store : List JobRow) (i : String) (msg : String) :
    List JobRow :=
  updateRow store i (fun r =>
    { r with
      error_message := some (if msg = "" then "Unknown error" else msg)
      status := JobStatus.failed })

/-- The BullMQ worker body for one dequeued entry `d`: re-read the row by
`d.jobId` (missing row: skip silently); skip when the row is INACTIVE; for
type "http" issue the request (`http` is its outcome); on success update
last_run / next_run (recomputed from the authoritative row unless
SPECIFIC_TIME) and clear error_message; on failure — HTTP error or an
unsupported job type — record error_message and status FAILED and re-throw
the error to the queue engine. -/
def processEntry (store : List JobRow) (d : JobData) (now : Nat)
    (http : HttpOutcome) : WorkerResult :=
  match store.find? (fun r => r.id = d.jobId) with
  | none => ⟨store, false, none⟩
  | some dbJob =>
    if dbJob.status = JobStatus.inactive then ⟨store, false, none⟩
    else if d.type = "http" then
      match http with
      | HttpOutcome.err msg => ⟨failUpdate store d.jobId msg, true, some msg⟩
      | HttpOutcome.ok _ =>
        let nextRun :=
          if dbJob.schedule_type ≠ ScheduleType.specific_time then
            calculateNextRun dbJob.cfg now
          else none
        ⟨updateRow store d.jobId (fun r =>
            { r with last_run := some now, next_run := nextRun,
                     error_message := none }),
          true, none⟩
    else
      let msg := "Unsupported job type: " ++ d.type
      ⟨failUpdate store d.jobId msg, false, some msg⟩

/-- A recurring http job request body used in concrete evaluations. -/
def sampleInput : JobInput :=
  { name := "ping", type := "http", target := "https://example.com/hook",
    schedule_type := ScheduleType.recurring, interval := some "minute",
    interval_value := some 1 }

/-- A one-shot http job request body for a given specific time. -/
def specInput (t : Nat) : JobInput :=
  { name := "oneshot", type := "http", target := "https://example.com/hook",
    schedule_type := ScheduleType.specific_time, specific_time := some t }

/-- The stored row of `sampleInput` under id "j1". -/
def sampleRow : JobRow :=
  { id := "j1", name := "ping", type := "http",
    target := "https://example.com/hook",
    schedule_type := ScheduleType.recurring, interval := some "minute",
    interval_value := some 1, next_run := some 60000,
    status := JobStatus.active }

/-- A state holding the active job "j1", enqueued in the Execution Queue. -/
def sampleState : SchedState :=
  { store := [sampleRow],
    execQueue := [⟨"j1", dataOfRow "j1" sampleRow⟩],
    dlq := [] }

section Lemmas

/-- Lane membership as existence of an entry with the id. -/
theorem inLane_iff (q : List QueueEntry) (i : String) :
    inLane q i = true ↔ ∃ e ∈ q, e.queueId = i := by
  simp [inLane, List.any_eq_true]

/-- Removing an id from a lane: membership survives exactly for other ids. -/
theorem inLane_removeEntry (q : List QueueEntry) (x i : String) :
    inLane (removeEntry q x) i = true ↔ (i ≠ x ∧ inLane q i = true) := by
  simp only [inLane_iff, removeEntry, List.mem_filter]
  constructor
  · rintro ⟨e, ⟨he, hne⟩, rfl⟩
    exact ⟨by simpa using hne, e, he, rfl⟩
  · rintro ⟨hix, e, he, rfl⟩
    exact ⟨e, ⟨he, by simpa using hix⟩, rfl⟩

/-- Adding an entry to a lane: membership afterwards is the entry's id or a
previous member (with BullMQ's deduplication on an already-present id). -/
theorem inLane_addEntry (q : List QueueEntry) (e : QueueEntry) (i : String) :
    inLane (addEntry q e) i = true ↔ (i = e.queueId ∨ inLane q i = true) := by
  unfold addEntry
  split
  case isTrue h =>
    constructor
    · exact fun hq => Or.inr hq
    · rintro (rfl | hq)
      · exact h
      · exact hq
  case isFalse h =>
    simp only [inLane_iff, List.mem_append, List.mem_singleton]
    constructor
    · rintro ⟨x, hx | rfl, hqe⟩
      · exact Or.inr ⟨x, hx, hqe⟩
      · exact Or.inl hqe.symm
    · rintro (rfl | ⟨x, hx, hqe⟩)
      · exact ⟨e, Or.inr rfl, rfl⟩
      · exact ⟨x, Or.inl hx, hqe⟩

/-- Looking up an id after an id-preserving row update returns the updated
row. -/
theorem find?_updateRow (store : List JobRow) (i : String) (f : JobRow → JobRow)
    (hf : ∀ r, (f r).id = r.id) :
    (updateRow store i f).find? (fun r => r.id = i) =
      (store.find? (fun r => r.id = i)).map f := by
  induction store with
  | nil => rfl
  | cons r rs ih =>
    by_cases h : r.id = i
    · simp [updateRow, List.find?, h, hf]
    · simp [updateRow, List.find?, h] at ih ⊢
      simpa [updateRow] using ih

/-- After filtering an id out of the table, looking it up fails. -/
theorem find?_filter_ne (store : List JobRow) (i : String) :
    (store.filter (fun r => r.id ≠ i)).find? (fun r => r.id = i) = none := by
  rw [List.find?_eq_none]
  intro x hx
  simp [List.mem_filter] at hx
  simp [hx.2]

/-- Delete on a missing id is a 404. -/
theorem deleteJob_code_404 (st : SchedState) (i : String)
    (h : findJob st i = none) : (deleteJob i st).1.code = 404 := by
  simp [deleteJob, h]

/-- Removing an id from a lane removes it. -/
theorem inLane_removeEntry_self (q : List QueueEntry) (i : String) :
    inLane (removeEntry q i) i = false := by
  cases h : inLane (removeEntry q i) i
  · rfl
  · exact absurd rfl ((inLane_removeEntry q i i).mp h).1

end Lemmas

/-- C3: for every job with schedule_type RECURRING, a valid interval and a
positive interval_value, `calculateNextRun` at reference time `t` equals
`t` plus `interval_value` units of the interval, and is strictly greater
than `t`. -/
theorem calculateNextRun_recurring (cfg : SchedCfg) (t : Nat) (s : String)
    (iv : Interval) (v : Nat)
    (hty : cfg.schedule_type = ScheduleType.recurring)
    (hs : cfg.interval = some s) (hi : parseInterval s = some iv)
    (hv : cfg.interval_value = some v) (hpos : 0 < v) :
    calculateNextRun cfg t = some (t + v * unitMillis iv) ∧
      t < t + v * unitMillis iv := by
  have hu : 0 < unitMillis iv := by cases iv <;> simp [unitMillis]
  refine ⟨by simp [calculateNextRun, hty, hs, hv, hi], ?_⟩
  have hvu := Nat.mul_pos hpos hu
  omega

/-- Witness: `calculateNextRun` on a one-minute recurring job at time 1000
is 1000 + 60000. -/
theorem calculateNextRun_recurring_witness :
    calculateNextRun (JobInput.cfg sampleInput) 1000 =
        some (1000 + 1 * unitMillis Interval.minute) ∧
      1000 < 1000 + 1 * unitMillis Interval.minute :=
  calculateNextRun_recurring (JobInput.cfg sampleInput) 1000 "minute"
    Interval.minute 1 rfl rfl rfl rfl (by decide)

/-- C6: a dequeued entry whose job id has no row in the job table is
completed silently: the table is unchanged, no HTTP call is issued and no
error is raised. -/
theorem worker_missing_row_skips (store : List JobRow) (d : JobData)
    (now : Nat) (http : HttpOutcome)
    (h : store.find? (fun r => r.id = d.jobId) = none) :
    processEntry store d now http = ⟨store, false, none⟩ := by
  simp [processEntry, h]

/-- Witness: processing an entry against an empty job table does nothing. -/
theorem worker_missing_row_skips_witness :
    ([] : List JobRow).find? (fun r => r.id = (dataOfRow "j1" sampleRow).jobId)
        = none ∧
      processEntry [] (dataOfRow "j1" sampleRow) 0 (HttpOutcome.ok 200) =
        ⟨[], false, none⟩ :=
  ⟨rfl, worker_missing_row_skips [] (dataOfRow "j1" sampleRow) 0
    (HttpOutcome.ok 200) rfl⟩

/-- C7: a dequeued entry whose authoritative row has status INACTIVE at
processing time is skipped: no HTTP call, no error, table unchanged. -/
theorem worker_inactive_skips (store : List JobRow) (d : JobData) (now : Nat)
    (http : HttpOutcome) (dbJob : JobRow)
    (hfind : store.find? (fun r => r.id = d.jobId) = some dbJob)
    (hst : dbJob.status = JobStatus.inactive) :
    processEntry store d now http = ⟨store, false, none⟩ := by
  simp [processEntry, hfind, hst]

/-- Witness: an inactive row is skipped by the worker. -/
theorem worker_inactive_skips_witness :
    [{ sampleRow with status := JobStatus.inactive }].find?
        (fun r => r.id = (dataOfRow "j1" sampleRow).jobId) =
        some { sampleRow with status := JobStatus.inactive } ∧
      processEntry [{ sampleRow with status := JobStatus.inactive }]
          (dataOfRow "j1" sampleRow) 0 (HttpOutcome.ok 200) =
        ⟨[{ sampleRow with status := JobStatus.inactive }], false, none⟩ :=
  ⟨by decide, worker_inactive_skips _ _ 0 (HttpOutcome.ok 200)
    { sampleRow with status := JobStatus.inactive } (by decide) rfl⟩

/-- C1 counterexample: a SetStatus request with value "failed" on the
existing job "j1" is not rejected — the handler answers 200 and persists
status FAILED, refuting the claim that every value other than ACTIVE and
INACTIVE is rejected. -/
theorem setStatus_failed_accepted :
    (setStatus "j1" "failed" 0 sampleState).1.code = 200 ∧
      (findJob (setStatus "j1" "failed" 0 sampleState).2 "j1").map
          JobRow.status = some JobStatus.failed := by
  decide

/-- C1 amended: a requested status value outside the JobStatus enum
("active" / "inactive" / "failed") is rejected with 400 and nothing is
persisted; FAILED, being a member of the enum, is accepted. -/
theorem setStatus_invalid_rejected (i raw : String) (now : Nat)
    (st : SchedState) (h : parseStatus raw = none) :
    setStatus i raw now st = (⟨400, "Invalid status value"⟩, st) := by
  simp [setStatus, h]

/-- Witness: the value "completed" is rejected and the state is unchanged. -/
theorem setStatus_invalid_rejected_witness :
    parseStatus "completed" = none ∧
      setStatus "j1" "completed" 0 sampleState =
        (⟨400, "Invalid status value"⟩, sampleState) :=
  ⟨rfl, setStatus_invalid_rejected "j1" "completed" 0 sampleState rfl⟩

/-- C5: Delete on an existing job answers 200 and leaves no entry for the
id in either lane, and a second Delete on the same id answers 404. -/
theorem delete_idempotent (st : SchedState) (i : String) (r : JobRow)
    (h : findJob st i = some r) :
    (deleteJob i st).1.code = 200 ∧
      inLane (deleteJob i st).2.execQueue i = false ∧
      inLane (deleteJob i st).2.dlq i = false ∧
      (deleteJob i (deleteJob i st).2).1.code = 404 := by
  have hsecond : findJob (deleteJob i st).2 i = none := by
    simp only [deleteJob, h]
    simp only [findJob]
    exact find?_filter_ne st.store i
  refine ⟨?_, ?_, ?_, deleteJob_code_404 _ _ hsecond⟩
  · simp [deleteJob, h]
  · simp [deleteJob, h, inLane_removeEntry_self]
  · simp [deleteJob, h, inLane_removeEntry_self]

/-- Witness: deleting "j1" from the sample state succeeds, clears both
lanes, and a repeat delete is a 404. -/
theorem delete_idempotent_witness :
    findJob sampleState "j1" = some sampleRow ∧
      ((deleteJob "j1" sampleState).1.code = 200 ∧
        inLane (deleteJob "j1" sampleState).2.execQueue "j1" = false ∧
        inLane (deleteJob "j1" sampleState).2.dlq "j1" = false ∧
        (deleteJob "j1" (deleteJob "j1" sampleState).2).1.code = 404) :=
  ⟨by decide, delete_idempotent sampleState "j1" sampleRow (by decide)⟩

/-- C9: RunNow on an existing job enqueues one immediate entry under the
queue id `id ++ "-manual-" ++ now`, which differs from the job's id, and
changes nothing else — in particular the stored row is untouched. -/
theorem runNow_enqueues_distinct_id (st : SchedState) (i : String)
    (now : Nat) (job : JobRow) (h : findJob st i = some job) :
    runNow i now st =
        (⟨200, "Job triggered successfully"⟩,
          { st with execQueue := addEntry st.execQueue (manualEntry i now job) }) ∧
      (manualEntry i now job).queueId ≠ i ∧
      (runNow i now st).2.store = st.store ∧
      (runNow i now st).2.dlq = st.dlq := by
  have hne : (manualEntry i now job).queueId ≠ i := by
    intro he
    simp only [manualEntry] at he
    have h2 := congrArg String.length he
    rw [String.length_append, String.length_append] at h2
    have h3 : ("-manual-" : String).length = 8 := by decide
    omega
  refine ⟨by simp [runNow, h], hne, by simp [runNow, h], by simp [runNow, h]⟩

/-- Witness: RunNow on "j1" at time 5 adds the entry "j1-manual-5" and
leaves the store and dead-letter lane unchanged. -/
theorem runNow_enqueues_distinct_id_witness :
    findJob sampleState "j1" = some sampleRow ∧
      (runNow "j1" 5 sampleState =
          (⟨200, "Job triggered successfully"⟩,
            { sampleState with execQueue := addEntry sampleState.execQueue (manualEntry "j1" 5 sampleRow) }) ∧
        (manualEntry "j1" 5 sampleRow).queueId ≠ "j1" ∧
        (runNow "j1" 5 sampleState).2.store = sampleState.store ∧
        (runNow "j1" 5 sampleState).2.dlq = sampleState.dlq) :=
  ⟨by decide, runNow_enqueues_distinct_id sampleState "j1" 5 sampleRow
    (by decide)⟩

/-- C4: a Create or Update request whose schedule_type is SPECIFIC_TIME and
whose specific time is not strictly in the future is rejected with a 400
validation error. -/
theorem past_specific_time_rejected (input : JobInput) (newId i : String)
    (now t : Nat) (st : SchedState) (r : JobRow)
    (hty : input.schedule_type = ScheduleType.specific_time)
    (hsp : input.specific_time = some t) (hpast : t ≤ now)
    (hrow : findJob st i = some r) :
    (createJob input newId now st).1 =
        ⟨400, "Specific time must be in the future"⟩ ∧
      (updateJob i input now st).1 =
        ⟨400, "Specific time must be in the future"⟩ := by
  have hnlt : ¬ (now < t) := by omega
  have hnr : calculateNextRun input.cfg now = none := by
    simp [calculateNextRun, JobInput.cfg, hty, hsp, hnlt]
  have hdel : calculateInitialDelay input.cfg now = none := by
    simp [calculateInitialDelay, JobInput.cfg, hty, hsp, hnlt]
  constructor
  · simp [createJob, hnr, hty, hdel]
  · simp [updateJob, hrow, hnr, hty, hdel]

/-- Witness: creating and updating with a specific time of 5 at time 10 is
rejected with the validation message. -/
theorem past_specific_time_rejected_witness :
    (specInput 5).schedule_type = ScheduleType.specific_time ∧
      (specInput 5).specific_time = some 5 ∧ 5 ≤ 10 ∧
      findJob sampleState "j1" = some sampleRow ∧
      ((createJob (specInput 5) "j2" 10 sampleState).1 =
          ⟨400, "Specific time must be in the future"⟩ ∧
        (updateJob "j1" (specInput 5) 10 sampleState).1 =
          ⟨400, "Specific time must be in the future"⟩) :=
  ⟨rfl, rfl, by omega, by decide,
    past_specific_time_rejected (specInput 5) "j2" "j1" 10 5 sampleState
      sampleRow rfl rfl (by omega) (by decide)⟩

/-- C10 (implicit): the create handler INSERTs the row before computing the
initial delay, so the 400 "Specific time must be in the future" response
leaves the freshly inserted row persisted (with next_run null) while both
queue lanes are untouched — the error path does not roll the store back. -/
theorem create_past_time_persists_row (input : JobInput) (newId : String)
    (now t : Nat) (st : SchedState)
    (hty : input.schedule_type = ScheduleType.specific_time)
    (hsp : input.specific_time = some t) (hpast : t ≤ now) :
    (createJob input newId now st).1 =
        ⟨400, "Specific time must be in the future"⟩ ∧
      (createJob input newId now st).2.store =
        st.store ++ [rowOfInput input newId none] ∧
      (createJob input newId now st).2.execQueue = st.execQueue ∧
      (createJob input newId now st).2.dlq = st.dlq := by
  have hnlt : ¬ (now < t) := by omega
  have hnr : calculateNextRun input.cfg now = none := by
    simp [calculateNextRun, JobInput.cfg, hty, hsp, hnlt]
  have hdel : calculateInitialDelay input.cfg now = none := by
    simp [calculateInitialDelay, JobInput.cfg, hty, hsp, hnlt]
  refine ⟨?_, ?_, ?_, ?_⟩ <;> simp [createJob, hnr, hty, hdel]

/-- Witness: the rejected one-shot create at time 10 persists its row. -/
theorem create_past_time_persists_row_witness :
    (specInput 5).schedule_type = ScheduleType.specific_time ∧
      (specInput 5).specific_time = some 5 ∧ 5 ≤ 10 ∧
      ((createJob (specInput 5) "j2" 10 sampleState).1 =
          ⟨400, "Specific time must be in the future"⟩ ∧
        (createJob (specInput 5) "j2" 10 sampleState).2.store =
          sampleState.store ++ [rowOfInput (specInput 5) "j2" none] ∧
        (createJob (specInput 5) "j2" 10 sampleState).2.execQueue =
          sampleState.execQueue ∧
        (createJob (specInput 5) "j2" 10 sampleState).2.dlq =
          sampleState.dlq) :=
  ⟨rfl, rfl, by omega,
    create_past_time_persists_row (specInput 5) "j2" 10 5 sampleState
      rfl rfl (by omega)⟩

/-- C8: when the target action fails — the HTTP call errors or times out,
or the job type is unsupported — the worker records the failure detail in
error_message, sets status FAILED, and re-raises the failure to the queue
engine. -/
theorem worker_failure_records_and_reraises (store : List JobRow)
    (d : JobData) (now : Nat) (msg : String) (dbJob : JobRow)
    (hfind : store.find? (fun r => r.id = d.jobId) = some dbJob)
    (hst : dbJob.status ≠ JobStatus.inactive) (hmsg : msg ≠ "") :
    (d.type = "http" →
      processEntry store d now (HttpOutcome.err msg) =
        ⟨updateRow store d.jobId (fun r =>
            { r with error_message := some msg,
                     status := JobStatus.failed }),
          true, some msg⟩) ∧
    (d.type ≠ "http" → ∀ http : HttpOutcome,
      processEntry store d now http =
        ⟨updateRow store d.jobId (fun r =>
            { r with
              error_message := some ("Unsupported job type: " ++ d.type),
              status := JobStatus.failed }),
          false, some ("Unsupported job type: " ++ d.type)⟩) := by
  constructor
  · intro hhttp
    simp [processEntry, hfind, hst, hhttp, failUpdate, hmsg]
  · intro hn http
    have hne2 : ¬ ("Unsupported job type: " ++ d.type) = "" := by
      intro he
      have h2 := congrArg String.length he
      rw [String.length_append] at h2
      have h3 : ("Unsupported job type: " : String).length = 22 := by decide
      have h4 : ("" : String).length = 0 := by decide
      omega
    simp [processEntry, hfind, hst, hn, failUpdate, hne2]

/-- Witness: an HTTP failure with detail "HTTP 500" marks "j1" FAILED with
that error message and re-raises it. -/
theorem worker_failure_records_and_reraises_witness :
    [sampleRow].find? (fun r => r.id = (dataOfRow "j1" sampleRow).jobId) =
        some sampleRow ∧
      sampleRow.status ≠ JobStatus.inactive ∧ ("HTTP 500" : String) ≠ "" ∧
      (((dataOfRow "j1" sampleRow).type = "http" →
        processEntry [sampleRow] (dataOfRow "j1" sampleRow) 0
            (HttpOutcome.err "HTTP 500") =
          ⟨updateRow [sampleRow] (dataOfRow "j1" sampleRow).jobId (fun r =>
              { r with error_message := some "HTTP 500",
                       status := JobStatus.failed }),
            true, some "HTTP 500"⟩) ∧
      ((dataOfRow "j1" sampleRow).type ≠ "http" → ∀ http : HttpOutcome,
        processEntry [sampleRow] (dataOfRow "j1" sampleRow) 0 http =
          ⟨updateRow [sampleRow] (dataOfRow "j1" sampleRow).jobId (fun r =>
              { r with
                error_message := some
                  ("Unsupported job type: " ++ (dataOfRow "j1" sampleRow).type),
                status := JobStatus.failed }),
            false,
            some ("Unsupported job type: " ++
              (dataOfRow "j1" sampleRow).type)⟩)) :=
  ⟨by decide, by decide, by decide,
    worker_failure_records_and_reraises [sampleRow] (dataOfRow "j1" sampleRow)
      0 "HTTP 500" sampleRow (by decide) (by decide) (by decide)⟩

/-- Removing from the Execution lane preserves exclusion. -/
theorem lanesExclusive_remove_left (ex dl : List QueueEntry) (x i : String)
    (h : lanesExclusive ex dl i) : lanesExclusive (removeEntry ex x) dl i := by
  rintro ⟨hex, hdl⟩
  exact h ⟨((inLane_removeEntry ex x i).mp hex).2, hdl⟩

/-- Removing from the Dead-Letter lane preserves exclusion. -/
theorem lanesExclusive_remove_right (ex dl : List QueueEntry) (x i : String)
    (h : lanesExclusive ex dl i) : lanesExclusive ex (removeEntry dl x) i := by
  rintro ⟨hex, hdl⟩
  exact h ⟨hex, ((inLane_removeEntry dl x i).mp hdl).2⟩

/-- Adding an id to the Execution lane that is absent from the Dead-Letter
lane preserves exclusion. -/
theorem lanesExclusive_add_left_fresh (ex dl : List QueueEntry) (x : String)
    (d : JobData) (i : String) (hfresh : inLane dl x = false)
    (h : lanesExclusive ex dl i) :
    lanesExclusive (addEntry ex ⟨x, d⟩) dl i := by
  rintro ⟨hex, hdl⟩
  rcases (inLane_addEntry ex ⟨x, d⟩ i).mp hex with he | hex'
  · rw [he] at hdl
    simp only [hfresh] at hdl
    exact absurd hdl (by simp)
  · exact h ⟨hex', hdl⟩

/-- The remove-then-add transition: adding an id to the Execution lane while
removing it from the Dead-Letter lane preserves exclusion. -/
theorem lanesExclusive_add_left_remove_right (ex dl : List QueueEntry)
    (x : String) (d : JobData) (i : String) (h : lanesExclusive ex dl i) :
    lanesExclusive (addEntry ex ⟨x, d⟩) (removeEntry dl x) i := by
  rintro ⟨hex, hdl⟩
  obtain ⟨hne, hdl'⟩ := (inLane_removeEntry dl x i).mp hdl
  rcases (inLane_addEntry ex ⟨x, d⟩ i).mp hex with he | hex'
  · exact hne he
  · exact h ⟨hex', hdl'⟩

/-- The remove-then-add transition towards the Dead-Letter lane. -/
theorem lanesExclusive_add_right_remove_left (ex dl : List QueueEntry)
    (x : String) (d : JobData) (i : String) (h : lanesExclusive ex dl i) :
    lanesExclusive (removeEntry ex x) (addEntry dl ⟨x, d⟩) i := by
  rintro ⟨hex, hdl⟩
  obtain ⟨hne, hex'⟩ := (inLane_removeEntry ex x i).mp hex
  rcases (inLane_addEntry dl ⟨x, d⟩ i).mp hdl with he | hdl'
  · exact hne he
  · exact h ⟨hex', hdl'⟩

/-- Create preserves lane exclusion (the fresh uuid is not dead-lettered). -/
theorem atMostOne_createJob (input : JobInput) (newId : String) (now : Nat)
    (st : SchedState) (i : String) (hfresh : inLane st.dlq newId = false)
    (h : atMostOne st i) : atMostOne (createJob input newId now st).2 i := by
  simp only [createJob]
  split
  · exact h
  · split
    · split
      · exact h
      · exact lanesExclusive_add_left_fresh _ _ _ _ _ hfresh h
    · split
      · exact h
      · exact lanesExclusive_add_left_fresh _ _ _ _ _ hfresh h

/-- Update preserves lane exclusion: the id is removed from both lanes
before the re-add. -/
theorem atMostOne_updateJob (x : String) (input : JobInput) (now : Nat)
    (st : SchedState) (i : String) (h : atMostOne st i) :
    atMostOne (updateJob x input now st).2 i := by
  simp only [updateJob]
  split
  · exact h
  · split
    · exact h
    · split
      · split
        · exact lanesExclusive_remove_left _ _ _ _
            (lanesExclusive_remove_right _ _ _ _ h)
        · exact lanesExclusive_add_left_remove_right _ _ _ _ _
            (lanesExclusive_remove_left _ _ _ _ h)
      · split
        · exact lanesExclusive_remove_left _ _ _ _
            (lanesExclusive_remove_right _ _ _ _ h)
        · exact lanesExclusive_add_left_remove_right _ _ _ _ _
            (lanesExclusive_remove_left _ _ _ _ h)

/-- Delete preserves lane exclusion: the id is removed from both lanes. -/
theorem atMostOne_deleteJob (x : String) (st : SchedState) (i : String)
    (h : atMostOne st i) : atMostOne (deleteJob x st).2 i := by
  simp only [deleteJob]
  split
  · exact h
  · exact lanesExclusive_remove_left _ _ _ _
      (lanesExclusive_remove_right _ _ _ _ h)

/-- SetStatus preserves lane exclusion in every accepted branch. -/
theorem atMostOne_setStatus (x raw : String) (now : Nat) (st : SchedState)
    (i : String) (h : atMostOne st i) :
    atMostOne (setStatus x raw now st).2 i := by
  simp only [setStatus]
  split
  · exact h
  · split
    · exact h
    · split
      · exact lanesExclusive_add_right_remove_left _ _ _ _ _ h
      · split
        · split
          · split
            · exact lanesExclusive_remove_right _ _ _ _ h
            · exact lanesExclusive_add_left_remove_right _ _ _ _ _ h
          · split
            · exact lanesExclusive_remove_right _ _ _ _ h
            · exact lanesExclusive_add_left_remove_right _ _ _ _ _ h
        · exact h

/-- Reactivation preserves lane exclusion. -/
theorem atMostOne_reactivate (x : String) (now : Nat) (st : SchedState)
    (i : String) (h : atMostOne st i) :
    atMostOne (reactivateFromDlq x now st).2 i := by
  simp only [reactivateFromDlq]
  split
  · exact h
  · split
    · exact h
    · split
      · split
        · exact lanesExclusive_remove_right _ _ _ _ h
        · exact lanesExclusive_add_left_remove_right _ _ _ _ _ h
      · split
        · exact lanesExclusive_remove_right _ _ _ _ h
        · exact lanesExclusive_add_left_remove_right _ _ _ _ _ h

/-- Completion from the Dead-Letter lane preserves lane exclusion. -/
theorem atMostOne_complete (x : String) (now : Nat) (st : SchedState)
    (i : String) (h : atMostOne st i) :
    atMostOne (completeFromDlq x now st).2 i := by
  simp only [completeFromDlq]
  split
  · exact h
  · split
    · exact h
    · exact lanesExclusive_remove_right _ _ _ _ h

/-- C2 amended (mutual-exclusion part): after any of the six Lifecycle
Controller operations completes — with a fresh uuid for Create — a job id
present in at most one of the Execution Queue and Dead-Letter lanes is
still present in at most one of them.  (Lane membership is not always
consistent with the persisted status; see the counterexample.) -/
theorem lifecycle_preserves_lane_exclusion (op : LifecycleOp)
    (st : SchedState) (i : String) (hfresh : opFresh op st)
    (h : atMostOne st i) : atMostOne (applyLifecycle op st).2 i := by
  cases op with
  | create input newId now => exact atMostOne_createJob input newId now st i hfresh h
  | update x input now => exact atMostOne_updateJob x input now st i h
  | delete x => exact atMostOne_deleteJob x st i h
  | patchStatus x raw now => exact atMostOne_setStatus x raw now st i h
  | reactivate x now => exact atMostOne_reactivate x now st i h
  | complete x now => exact atMostOne_complete x now st i h

/-- Witness: deleting "j1" from the sample state keeps its id in at most
one lane. -/
theorem lifecycle_preserves_lane_exclusion_witness :
    opFresh (LifecycleOp.delete "j1") sampleState ∧
      atMostOne sampleState "j1" ∧
      atMostOne (applyLifecycle (LifecycleOp.delete "j1") sampleState).2
        "j1" :=
  ⟨trivial, by decide,
    lifecycle_preserves_lane_exclusion (LifecycleOp.delete "j1") sampleState
      "j1" trivial (by decide)⟩

/-- C2 counterexample: the consistency half of the claim fails.  Starting
from the active job "j1" in the Execution Queue, SetStatus INACTIVE
dead-letters it, and the subsequent lifecycle operation SetStatus FAILED —
accepted by the handler — persists status FAILED while leaving the entry in
the Dead-Letter lane, so after that operation completes the lane membership
is not consistent with the persisted status. -/
theorem lane_consistency_fails :
    ¬ laneConsistent
        (setStatus "j1" "failed" 0
          (setStatus "j1" "inactive" 0 sampleState).2).2 "j1" := by
  decide

end PingScheduler
